import Mathlib

/-!
Shallow embedding of the artnet_protocol packet codec (Trangar/artnet_protocol).

Bytes are modelled as `Nat` values (each in 0..255 on real wire data), byte
buffers as `List Nat`.  A cursor over a buffer is modelled by passing the list
of not-yet-consumed bytes; a reader returns the decoded value together with the
remaining bytes.  A writer that appends to a `&mut Vec<u8>` is modelled as a
function from the buffer to the new buffer; the one fallible writer
(`PaddedData::write_to_buffer`) also returns the state of its receiver after
the call, so that absence of receiver mutation is a provable statement.
Fallible operations return `Except Error α`.
-/

deriving instance DecidableEq for Except

namespace Artnet

/-- Error type, translated from src/error.rs (constructors used by
port_address.rs and timecode.rs included as the code requires them).
IO-error payloads carry no information relevant to the codec, so
`CursorEof` is a bare constructor. -/
inductive Error where
  | CursorEof : Error
  | SerializeError : String → Error → Error
  | DeserializeError : String → Error → Error
  | MessageTooShort : List Nat → Nat → Error
  | MessageSizeInvalid : List Nat → Nat → Nat → Error
  | InvalidArtnetHeader : List Nat → Error
  | OpcodeError : String → Error → Error
  | UnknownOpcode : Nat → Error
  | InvalidPortAddress : Int → Error
  | InvalidTimecodeFrameType : Nat → Error
deriving DecidableEq

/-- Reads one byte from the cursor (`Cursor::read_u8`). -/
def readU8 : List Nat → Except Error (Nat × List Nat)
  | [] => .error .CursorEof
  | b :: rest => .ok (b, rest)

/-- Reads a little-endian 16-bit value (`read_u16::<LittleEndian>`). -/
def readU16LE : List Nat → Except Error (Nat × List Nat)
  | b0 :: b1 :: rest => .ok (b0 + 256 * b1, rest)
  | _ => .error .CursorEof

/-- Reads a big-endian 16-bit value (`read_u16::<BigEndian>`). -/
def readU16BE : List Nat → Except Error (Nat × List Nat)
  | b0 :: b1 :: rest => .ok (256 * b0 + b1, rest)
  | _ => .error .CursorEof

/-- Reads exactly `n` bytes (`read_exact` into a `[u8; n]`). -/
def readBytes (n : Nat) (input : List Nat) : Except Error (List Nat × List Nat) :=
  if n ≤ input.length then .ok (input.take n, input.drop n) else .error .CursorEof

/-- Appends one byte (`buffer.push`); writing to a `Vec` cannot fail. -/
def writeU8 (v : Nat) (buffer : List Nat) : List Nat := buffer ++ [v]

/-- Appends a 16-bit value little-endian (`write_u16::<LittleEndian>`). -/
def writeU16LE (v : Nat) (buffer : List Nat) : List Nat :=
  buffer ++ [v % 256, v / 256 % 256]

/-- Appends a 16-bit value big-endian (`write_u16::<BigEndian>`). -/
def writeU16BE (v : Nat) (buffer : List Nat) : List Nat :=
  buffer ++ [v / 256 % 256, v % 256]

/-- Appends a byte slice (`extend_from_slice`). -/
def writeBytes (v : List Nat) (buffer : List Nat) : List Nat := buffer ++ v

/-- Wraps a reader failure with a field name
(the `map_err(DeserializeError ...)` in the data_structure macro). -/
def wrapDeser (name : String) (r : Except Error (α × List Nat)) :
    Except Error (α × List Nat) :=
  r.mapError (Error.DeserializeError name)

/-- PortAddress (src/port_address.rs): a 15-bit unsigned quantity stored
in a u16. -/
structure PortAddress where
  value : Nat
deriving DecidableEq

/-- Translation of `impl From<u8> for PortAddress`: cannot fail. -/
def PortAddress.from_u8 (v : Nat) : PortAddress := ⟨v⟩

/-- Translation of `impl TryFrom<u16> for PortAddress`. -/
def PortAddress.try_from_u16 (v : Nat) : Except Error PortAddress :=
  if v ≤ 32767 then .ok ⟨v⟩ else .error (.InvalidPortAddress (Int.ofNat v))

/-- Translation of `impl TryFrom<i32> for PortAddress`. -/
def PortAddress.try_from_i32 (v : Int) : Except Error PortAddress :=
  if 0 ≤ v ∧ v ≤ 32767 then .ok ⟨v.toNat⟩ else .error (.InvalidPortAddress v)

/-- PortAddress `from_cursor`: read a little-endian u16, then range-check
through `TryFrom<u16>`. -/
def PortAddress.from_cursor (input : List Nat) :
    Except Error (PortAddress × List Nat) := do
  let (number, rest) ← readU16LE input
  match PortAddress.try_from_u16 number with
  | .ok pa => .ok (pa, rest)
  | .error e => .error e

/-- PortAddress `write_to_buffer`: write the stored u16 little-endian. -/
def PortAddress.write_to_buffer (self : PortAddress) (buffer : List Nat) :
    List Nat :=
  writeU16LE self.value buffer

/-- Mask of all defined ArtTalkToMe bits
(ENABLE_VLC 0x10, UNICAST_DIAGNOSTICS 0x08, ENABLE_DIAGNOSTICS 0x04,
EMIT_CHANGES 0x02, NONE 0x00), used by `from_bits_truncate`. -/
def ART_TALK_TO_ME_MASK : Nat := 0x1E

/-- ArtTalkToMe `from_cursor` (src/enums.rs): read one byte and truncate
unknown bits. -/
def ArtTalkToMe.from_cursor (input : List Nat) :
    Except Error (Nat × List Nat) := do
  let (b, rest) ← readU8 input
  .ok (b &&& ART_TALK_TO_ME_MASK, rest)

/-- ArtTalkToMe `write_to_buffer`: push the bit-set byte verbatim. -/
def ArtTalkToMe.write_to_buffer (self : Nat) (buffer : List Nat) : List Nat :=
  buffer ++ [self]

/-- PaddedData (src/command/output/mod.rs): the DMX payload of an Output
packet; plain byte vector, no lock. -/
structure PaddedData where
  inner : List Nat
deriving DecidableEq

/-- Translation of `PaddedData::len`. -/
def PaddedData.len (self : PaddedData) : Nat := self.inner.length

/-- Translation of `PaddedData::len_rounded_up`: length rounded up to even. -/
def PaddedData.len_rounded_up (self : PaddedData) : Nat :=
  let len := self.inner.length
  if len % 2 ≠ 0 then len + 1 else len

/-- PaddedData `from_cursor`: take every remaining byte of the cursor;
never fails. -/
def PaddedData.from_cursor (input : List Nat) :
    Except Error (PaddedData × List Nat) :=
  .ok (⟨input⟩, [])

/-- PaddedData `write_to_buffer`, statement-by-statement: both size checks
happen before anything is pushed, so each early `return Err` leaves the
output buffer as it was.  The result triple is
(error if any, receiver state after the call, buffer after the call);
the method only ever reads `self.inner`, so the receiver comes back
unchanged on every path. -/
def PaddedData.write_to_buffer (self : PaddedData) (buffer : List Nat) :
    Option Error × PaddedData × List Nat :=
  let len := self.len
  if len = 0 then
    (some (.MessageSizeInvalid [] 2 512), self, buffer)
  else if len > 512 then
    (some (.MessageSizeInvalid self.inner 2 512), self, buffer)
  else
    (none, self, buffer ++ self.inner ++ (if len % 2 ≠ 0 then [0] else []))

/-- BigEndianLength of an Output (src/command/output/mod.rs): stores only
the value observed while parsing, if any. -/
structure BigEndianLengthOutput where
  parsed_length : Option Nat
deriving DecidableEq

/-- BigEndianLength `from_cursor`: read a raw big-endian u16 and retain it. -/
def BigEndianLengthOutput.from_cursor (input : List Nat) :
    Except Error (BigEndianLengthOutput × List Nat) := do
  let (length, rest) ← readU16BE input
  .ok (⟨some length⟩, rest)

/-- Output (ArtDmx) packet body, field order as declared in
src/command/output/mod.rs. -/
structure Output where
  version : List Nat
  sequence : Nat
  physical : Nat
  port_address : PortAddress
  length : BigEndianLengthOutput
  data : PaddedData
deriving DecidableEq

/-- BigEndianLength `write_to_buffer`: the written value is
`context.data.len_rounded_up() as u16`, big-endian; the receiver's own
stored `parsed_length` plays no part. -/
def BigEndianLengthOutput.write_to_buffer (_self : BigEndianLengthOutput)
    (context : Output) (buffer : List Nat) : List Nat :=
  writeU16BE (context.data.len_rounded_up % 65536) buffer

/-- Output `to_bytes` (expansion of the data_structure macro): write every
field in declaration order, passing the whole packet as context; the first
component is the result, the second the state of the packet value after the
call (only `data` has a fallible writer, and it never writes to itself). -/
def Output.to_bytes_state (self : Output) : Except Error (List Nat) × Output :=
  let b1 := writeBytes self.version []
  let b2 := writeU8 self.sequence b1
  let b3 := writeU8 self.physical b2
  let b4 := PortAddress.write_to_buffer self.port_address b3
  let b5 := BigEndianLengthOutput.write_to_buffer self.length self b4
  match PaddedData.write_to_buffer self.data b5 with
  | (some e, d, _) =>
      (.error (.SerializeError "Could not serialize field Output::data" e),
        { self with data := d })
  | (none, d, b6) => (.ok b6, { self with data := d })

/-- Output `to_bytes`, the byte-buffer result alone. -/
def Output.to_bytes (self : Output) : Except Error (List Nat) :=
  self.to_bytes_state.1

/-- Output `from` (expansion of the data_structure macro): decode every
field in declaration order from a cursor over the body bytes, wrapping each
field failure with the field's name. -/
def Output.from_bytes (data : List Nat) : Except Error Output := do
  let (version, c1) ←
    wrapDeser "Could not deserialize field Output::version" (readBytes 2 data)
  let (sequence, c2) ←
    wrapDeser "Could not deserialize field Output::sequence" (readU8 c1)
  let (physical, c3) ←
    wrapDeser "Could not deserialize field Output::physical" (readU8 c2)
  let (port_address, c4) ←
    wrapDeser "Could not deserialize field Output::port_address"
      (PortAddress.from_cursor c3)
  let (length, c5) ←
    wrapDeser "Could not deserialize field Output::length"
      (BigEndianLengthOutput.from_cursor c4)
  let (payload, _c6) ←
    wrapDeser "Could not deserialize field Output::data"
      (PaddedData.from_cursor c5)
  .ok ⟨version, sequence, physical, port_address, length, payload⟩

/-- Protocol version constant `ARTNET_PROTOCOL_VERSION` = [0, 14]. -/
def ARTNET_PROTOCOL_VERSION : List Nat := [0, 14]

/-- Translation of `Default for Output`. -/
def Output.default : Output :=
  { version := ARTNET_PROTOCOL_VERSION
    sequence := 0
    physical := 0
    port_address := PortAddress.from_u8 1
    length := ⟨none⟩
    data := ⟨[]⟩ }

/-- Poll packet body (src/command/poll.rs); `talk_to_me` is the
ArtTalkToMe bit-set byte. -/
structure Poll where
  version : List Nat
  talk_to_me : Nat
  diagnostics_priority : Nat
deriving DecidableEq

/-- Poll `to_bytes`: all three field writers are infallible appends. -/
def Poll.to_bytes (self : Poll) : Except Error (List Nat) :=
  let b1 := writeBytes self.version []
  let b2 := ArtTalkToMe.write_to_buffer self.talk_to_me b1
  let b3 := writeU8 self.diagnostics_priority b2
  .ok b3

/-- Poll `from`: decode the three fields in declaration order. -/
def Poll.from_bytes (data : List Nat) : Except Error Poll := do
  let (version, c1) ←
    wrapDeser "Could not deserialize field Poll::version" (readBytes 2 data)
  let (talk_to_me, c2) ←
    wrapDeser "Could not deserialize field Poll::talk_to_me"
      (ArtTalkToMe.from_cursor c1)
  let (diagnostics_priority, _c3) ←
    wrapDeser "Could not deserialize field Poll::diagnostics_priority"
      (readU8 c2)
  .ok ⟨version, talk_to_me, diagnostics_priority⟩

/-- Translation of `Default for Poll`. -/
def Poll.default : Poll :=
  { version := ARTNET_PROTOCOL_VERSION
    talk_to_me := 0
    diagnostics_priority := 0x80 }

/-- PollReply packet body (src/command/poll_reply.rs), fields in
declaration order; fixed byte arrays and the IPv4 address are byte lists. -/
structure PollReply where
  address : List Nat
  port : Nat
  version : List Nat
  port_address : List Nat
  oem : List Nat
  ubea_version : Nat
  status_1 : Nat
  esta_code : Nat
  short_name : List Nat
  long_name : List Nat
  node_report : List Nat
  num_ports : List Nat
  port_types : List Nat
  good_input : List Nat
  good_output : List Nat
  swin : List Nat
  swout : List Nat
  sw_video : Nat
  swMacro : Nat
  sw_remote : Nat
  spare : List Nat
  style : Nat
  mac : List Nat
  bind_ip : List Nat
  bind_index : Nat
  status_2 : Nat
  filler : List Nat
deriving DecidableEq

/-- PollReply `to_bytes`: every field writer is an infallible append
(the Ipv4 address writes its four octets, u16 fields write little-endian). -/
def PollReply.to_bytes (self : PollReply) : Except Error (List Nat) :=
  let b := writeBytes self.address []
  let b := writeU16LE self.port b
  let b := writeBytes self.version b
  let b := writeBytes self.port_address b
  let b := writeBytes self.oem b
  let b := writeU8 self.ubea_version b
  let b := writeU8 self.status_1 b
  let b := writeU16LE self.esta_code b
  let b := writeBytes self.short_name b
  let b := writeBytes self.long_name b
  let b := writeBytes self.node_report b
  let b := writeBytes self.num_ports b
  let b := writeBytes self.port_types b
  let b := writeBytes self.good_input b
  let b := writeBytes self.good_output b
  let b := writeBytes self.swin b
  let b := writeBytes self.swout b
  let b := writeU8 self.sw_video b
  let b := writeU8 self.swMacro b
  let b := writeU8 self.sw_remote b
  let b := writeBytes self.spare b
  let b := writeU8 self.style b
  let b := writeBytes self.mac b
  let b := writeBytes self.bind_ip b
  let b := writeU8 self.bind_index b
  let b := writeU8 self.status_2 b
  let b := writeBytes self.filler b
  .ok b

/-- PollReply `from`: decode every field in declaration order (the Ipv4
address is four single-byte reads, u16 fields read little-endian). -/
def PollReply.from_bytes (data : List Nat) : Except Error PollReply := do
  let (address, c) ←
    wrapDeser "Could not deserialize field PollReply::address"
      (readBytes 4 data)
  let (port, c) ←
    wrapDeser "Could not deserialize field PollReply::port" (readU16LE c)
  let (version, c) ←
    wrapDeser "Could not deserialize field PollReply::version" (readBytes 2 c)
  let (port_address, c) ←
    wrapDeser "Could not deserialize field PollReply::port_address"
      (readBytes 2 c)
  let (oem, c) ←
    wrapDeser "Could not deserialize field PollReply::oem" (readBytes 2 c)
  let (ubea_version, c) ←
    wrapDeser "Could not deserialize field PollReply::ubea_version" (readU8 c)
  let (status_1, c) ←
    wrapDeser "Could not deserialize field PollReply::status_1" (readU8 c)
  let (esta_code, c) ←
    wrapDeser "Could not deserialize field PollReply::esta_code" (readU16LE c)
  let (short_name, c) ←
    wrapDeser "Could not deserialize field PollReply::short_name"
      (readBytes 18 c)
  let (long_name, c) ←
    wrapDeser "Could not deserialize field PollReply::long_name"
      (readBytes 64 c)
  let (node_report, c) ←
    wrapDeser "Could not deserialize field PollReply::node_report"
      (readBytes 64 c)
  let (num_ports, c) ←
    wrapDeser "Could not deserialize field PollReply::num_ports"
      (readBytes 2 c)
  let (port_types, c) ←
    wrapDeser "Could not deserialize field PollReply::port_types"
      (readBytes 4 c)
  let (good_input, c) ←
    wrapDeser "Could not deserialize field PollReply::good_input"
      (readBytes 4 c)
  let (good_output, c) ←
    wrapDeser "Could not deserialize field PollReply::good_output"
      (readBytes 4 c)
  let (swin, c) ←
    wrapDeser "Could not deserialize field PollReply::swin" (readBytes 4 c)
  let (swout, c) ←
    wrapDeser "Could not deserialize field PollReply::swout" (readBytes 4 c)
  let (sw_video, c) ←
    wrapDeser "Could not deserialize field PollReply::sw_video" (readU8 c)
  let (swMacroV, c) ←
    wrapDeser "Could not deserialize field PollReply::sw_macro" (readU8 c)
  let (sw_remote, c) ←
    wrapDeser "Could not deserialize field PollReply::sw_remote" (readU8 c)
  let (spare, c) ←
    wrapDeser "Could not deserialize field PollReply::spare" (readBytes 3 c)
  let (style, c) ←
    wrapDeser "Could not deserialize field PollReply::style" (readU8 c)
  let (mac, c) ←
    wrapDeser "Could not deserialize field PollReply::mac" (readBytes 6 c)
  let (bind_ip, c) ←
    wrapDeser "Could not deserialize field PollReply::bind_ip" (readBytes 4 c)
  let (bind_index, c) ←
    wrapDeser "Could not deserialize field PollReply::bind_index" (readU8 c)
  let (status_2, c) ←
    wrapDeser "Could not deserialize field PollReply::status_2" (readU8 c)
  let (filler, _c) ←
    wrapDeser "Could not deserialize field PollReply::filler" (readBytes 26 c)
  .ok ⟨address, port, version, port_address, oem, ubea_version, status_1,
    esta_code, short_name, long_name, node_report, num_ports, port_types,
    good_input, good_output, swin, swout, sw_video, swMacroV, sw_remote,
    spare, style, mac, bind_ip, bind_index, status_2, filler⟩

/-- FrameType (src/command/timecode.rs): a closed enumeration of exactly
four SMPTE frame rates. -/
inductive FrameType where
  | Film : FrameType
  | EBU : FrameType
  | DF : FrameType
  | SMPTE : FrameType
deriving DecidableEq

/-- Translation of `impl TryFrom<u8> for FrameType`: exactly 0..3 succeed. -/
def FrameType.try_from (value : Nat) : Except Error FrameType :=
  match value with
  | 0 => .ok .Film
  | 1 => .ok .EBU
  | 2 => .ok .DF
  | 3 => .ok .SMPTE
  | _ => .error (.InvalidTimecodeFrameType value)

/-- FrameType `from_cursor`: read one byte, then `TryFrom<u8>`. -/
def FrameType.from_cursor (input : List Nat) :
    Except Error (FrameType × List Nat) := do
  let (number, rest) ← readU8 input
  match FrameType.try_from number with
  | .ok ft => .ok (ft, rest)
  | .error e => .error e

/-- Timecode packet body (src/command/timecode.rs), fields in declaration
order. -/
structure Timecode where
  version : List Nat
  filler1 : Nat
  stream_id : Nat
  frames : Nat
  seconds : Nat
  minutes : Nat
  hours : Nat
  frame_type : FrameType
deriving DecidableEq

/-- Timecode `from`: decode every field in declaration order. -/
def Timecode.from_bytes (data : List Nat) : Except Error Timecode := do
  let (version, c) ←
    wrapDeser "Could not deserialize field Timecode::version"
      (readBytes 2 data)
  let (filler1, c) ←
    wrapDeser "Could not deserialize field Timecode::filler1" (readU8 c)
  let (stream_id, c) ←
    wrapDeser "Could not deserialize field Timecode::stream_id" (readU8 c)
  let (frames, c) ←
    wrapDeser "Could not deserialize field Timecode::frames" (readU8 c)
  let (seconds, c) ←
    wrapDeser "Could not deserialize field Timecode::seconds" (readU8 c)
  let (minutes, c) ←
    wrapDeser "Could not deserialize field Timecode::minutes" (readU8 c)
  let (hours, c) ←
    wrapDeser "Could not deserialize field Timecode::hours" (readU8 c)
  let (frame_type, _c) ←
    wrapDeser "Could not deserialize field Timecode::frame_type"
      (FrameType.from_cursor c)
  .ok ⟨version, filler1, stream_id, frames, seconds, minutes, hours,
    frame_type⟩

/-- ArtCommand (src/command/mod.rs): the closed command variant type.
Poll, PollReply and Output carry typed bodies; every other variant is an
inert marker for a recognized-but-unimplemented opcode. -/
inductive ArtCommand where
  | Poll : Poll → ArtCommand
  | PollReply : PollReply → ArtCommand
  | DiagData : ArtCommand
  | Command : ArtCommand
  | Output : Output → ArtCommand
  | Nzs : ArtCommand
  | Sync : ArtCommand
  | Address : ArtCommand
  | Input : ArtCommand
  | TodRequest : ArtCommand
  | TodData : ArtCommand
  | TodControl : ArtCommand
  | Rdm : ArtCommand
  | RdmSub : ArtCommand
  | VideoSetup : ArtCommand
  | VideoPalette : ArtCommand
  | VideoData : ArtCommand
  | MacMaster : ArtCommand
  | MacSlave : ArtCommand
  | FirmwareMaster : ArtCommand
  | FirmwareReply : ArtCommand
  | FileTnMaster : ArtCommand
  | FileFnMaster : ArtCommand
  | FileFnReply : ArtCommand
  | OpIpProg : ArtCommand
  | OpIpProgReply : ArtCommand
  | OpMedia : ArtCommand
  | OpMediaPatch : ArtCommand
  | OpMediaControl : ArtCommand
  | OpMediaControlReply : ArtCommand
  | OpTimeCode : ArtCommand
  | OpTimeSync : ArtCommand
  | OpTrigger : ArtCommand
  | OpDirectory : ArtCommand
  | OpDirectoryReply : ArtCommand
deriving DecidableEq

/-- The 8-byte literal header `ARTNET_HEADER` = b"Art-Net\x00". -/
def ARTNET_HEADER : List Nat := [65, 114, 116, 45, 78, 101, 116, 0]

/-- ArtCommand `get_opcode`: the fixed variant-to-opcode table; the three
implemented bodies serialize themselves, all other variants pair their
opcode with an empty body. -/
def ArtCommand.get_opcode (self : ArtCommand) :
    Except Error (Nat × List Nat) := do
  match self with
  | .Poll poll => do let b ← poll.to_bytes; .ok (0x2000, b)
  | .PollReply reply => do let b ← reply.to_bytes; .ok (0x2100, b)
  | .DiagData => .ok (0x2300, [])
  | .Command => .ok (0x2400, [])
  | .Output output => do let b ← output.to_bytes; .ok (0x5000, b)
  | .Nzs => .ok (0x5100, [])
  | .Sync => .ok (0x5200, [])
  | .Address => .ok (0x6000, [])
  | .Input => .ok (0x7000, [])
  | .TodRequest => .ok (0x8000, [])
  | .TodData => .ok (0x8100, [])
  | .TodControl => .ok (0x8200, [])
  | .Rdm => .ok (0x8300, [])
  | .RdmSub => .ok (0x8400, [])
  | .VideoSetup => .ok (0xA010, [])
  | .VideoPalette => .ok (0xA020, [])
  | .VideoData => .ok (0xA040, [])
  | .MacMaster => .ok (0xF000, [])
  | .MacSlave => .ok (0xF100, [])
  | .FirmwareMaster => .ok (0xF200, [])
  | .FirmwareReply => .ok (0xF300, [])
  | .FileTnMaster => .ok (0xF400, [])
  | .FileFnMaster => .ok (0xF500, [])
  | .FileFnReply => .ok (0xF600, [])
  | .OpIpProg => .ok (0xF800, [])
  | .OpIpProgReply => .ok (0xF900, [])
  | .OpMedia => .ok (0x9000, [])
  | .OpMediaPatch => .ok (0x9100, [])
  | .OpMediaControl => .ok (0x9200, [])
  | .OpMediaControlReply => .ok (0x9300, [])
  | .OpTimeCode => .ok (0x9700, [])
  | .OpTimeSync => .ok (0x9800, [])
  | .OpTrigger => .ok (0x9900, [])
  | .OpDirectory => .ok (0x9A00, [])
  | .OpDirectoryReply => .ok (0x9B00, [])

/-- ArtCommand `write_to_buffer`: header, then the opcode little-endian,
then the body bytes. -/
def ArtCommand.write_to_buffer (self : ArtCommand) :
    Except Error (List Nat) := do
  let (opcode, data) ← self.get_opcode
  let result := writeBytes ARTNET_HEADER []
  let result := writeU16LE opcode result
  let result := writeBytes data result
  .ok result

/-- ArtCommand `opcode_to_enum`: the fixed opcode-to-variant table; the
three implemented bodies decode the remaining bytes, wrapping a body
failure once with the opcode's name; unknown codes are an error. -/
def ArtCommand.opcode_to_enum (code : Nat) (data : List Nat) :
    Except Error ArtCommand :=
  if code = 0x2000 then
    match Poll.from_bytes data with
    | .ok poll => .ok (.Poll poll)
    | .error e => .error (.OpcodeError "Poll" e)
  else if code = 0x2100 then
    match PollReply.from_bytes data with
    | .ok reply => .ok (.PollReply reply)
    | .error e => .error (.OpcodeError "PollReply" e)
  else if code = 0x2300 then .ok .DiagData
  else if code = 0x2400 then .ok .Command
  else if code = 0x5000 then
    match Output.from_bytes data with
    | .ok output => .ok (.Output output)
    | .error e => .error (.OpcodeError "Output" e)
  else if code = 0x5100 then .ok .Nzs
  else if code = 0x5200 then .ok .Sync
  else if code = 0x6000 then .ok .Address
  else if code = 0x7000 then .ok .Input
  else if code = 0x8000 then .ok .TodRequest
  else if code = 0x8100 then .ok .TodData
  else if code = 0x8200 then .ok .TodControl
  else if code = 0x8300 then .ok .Rdm
  else if code = 0x8400 then .ok .RdmSub
  else if code = 0xA010 then .ok .VideoSetup
  else if code = 0xA020 then .ok .VideoPalette
  else if code = 0xA040 then .ok .VideoData
  else if code = 0xF000 then .ok .MacMaster
  else if code = 0xF100 then .ok .MacSlave
  else if code = 0xF200 then .ok .FirmwareMaster
  else if code = 0xF300 then .ok .FirmwareReply
  else if code = 0xF400 then .ok .FileTnMaster
  else if code = 0xF500 then .ok .FileFnMaster
  else if code = 0xF600 then .ok .FileFnReply
  else if code = 0xF800 then .ok .OpIpProg
  else if code = 0xF900 then .ok .OpIpProgReply
  else if code = 0x9000 then .ok .OpMedia
  else if code = 0x9100 then .ok .OpMediaPatch
  else if code = 0x9200 then .ok .OpMediaControl
  else if code = 0x9300 then .ok .OpMediaControlReply
  else if code = 0x9700 then .ok .OpTimeCode
  else if code = 0x9800 then .ok .OpTimeSync
  else if code = 0x9900 then .ok .OpTrigger
  else if code = 0x9A00 then .ok .OpDirectory
  else if code = 0x9B00 then .ok .OpDirectoryReply
  else .error (.UnknownOpcode code)

/-- Minimum acceptable buffer length, `MIN_BUFFER_LENGTH` in `from_buffer`:
8-byte header plus 2-byte opcode plus minimum body. -/
def MIN_BUFFER_LENGTH : Nat := 14

/-- ArtCommand `from_buffer`: check the minimum length, check the header
literal, read the opcode little-endian from bytes 8..9, and dispatch the
remaining bytes through the opcode table. -/
def ArtCommand.from_buffer (buffer : List Nat) : Except Error ArtCommand :=
  if buffer.length < MIN_BUFFER_LENGTH then
    .error (.MessageTooShort buffer MIN_BUFFER_LENGTH)
  else if ¬ARTNET_HEADER.isPrefixOf buffer then
    .error (.InvalidArtnetHeader buffer)
  else
    let opcode := buffer.getD 8 0 + 256 * buffer.getD 9 0
    let remaining := buffer.drop 10
    ArtCommand.opcode_to_enum opcode remaining

/-- Every opcode appearing in the fixed table of `opcode_to_enum`. -/
def OPCODES : List Nat :=
  [0x2000, 0x2100, 0x2300, 0x2400, 0x5000, 0x5100, 0x5200, 0x6000, 0x7000,
   0x8000, 0x8100, 0x8200, 0x8300, 0x8400, 0xA010, 0xA020, 0xA040, 0xF000,
   0xF100, 0xF200, 0xF300, 0xF400, 0xF500, 0xF600, 0xF800, 0xF900, 0x9000,
   0x9100, 0x9200, 0x9300, 0x9700, 0x9800, 0x9900, 0x9A00, 0x9B00]

/-- Marks the variants that carry no packet body: every variant other than
Poll, PollReply and Output. -/
def ArtCommand.isInert : ArtCommand → Bool
  | .Poll _ => false
  | .PollReply _ => false
  | .Output _ => false
  | _ => true

/-- Representation invariants that the Rust PollReply type enforces through
its field types: every fixed-size array has its declared length and every
u16 field fits 16 bits. -/
def PollReply.WF (r : PollReply) : Prop :=
  r.address.length = 4 ∧ r.port < 65536 ∧ r.version.length = 2 ∧
  r.port_address.length = 2 ∧ r.oem.length = 2 ∧ r.esta_code < 65536 ∧
  r.short_name.length = 18 ∧ r.long_name.length = 64 ∧
  r.node_report.length = 64 ∧ r.num_ports.length = 2 ∧
  r.port_types.length = 4 ∧ r.good_input.length = 4 ∧
  r.good_output.length = 4 ∧ r.swin.length = 4 ∧ r.swout.length = 4 ∧
  r.spare.length = 3 ∧ r.mac.length = 6 ∧ r.bind_ip.length = 4 ∧
  r.filler.length = 26

/-- A concrete all-zero PollReply value, used to instantiate universally
quantified statements. -/
def samplePollReply : PollReply :=
  { address := [0, 0, 0, 0]
    port := 6454
    version := [0, 0]
    port_address := [0, 0]
    oem := [0, 0]
    ubea_version := 0
    status_1 := 0
    esta_code := 0
    short_name := List.replicate 18 0
    long_name := List.replicate 64 0
    node_report := List.replicate 64 0
    num_ports := [0, 0]
    port_types := [0, 0, 0, 0]
    good_input := [0, 0, 0, 0]
    good_output := [0, 0, 0, 0]
    swin := [0, 0, 0, 0]
    swout := [0, 0, 0, 0]
    sw_video := 0
    swMacro := 0
    sw_remote := 0
    spare := [0, 0, 0]
    style := 0
    mac := [0, 0, 0, 0, 0, 0]
    bind_ip := [0, 0, 0, 0]
    bind_index := 1
    status_2 := 0
    filler := List.replicate 26 0 }

/-!
Helper lemmas shared by the claim theorems below.
-/

/-- Reading n bytes from a buffer whose first n bytes are a known list
yields that list and the remainder. -/
theorem readBytes_exact {n : Nat} {l rest : List Nat} (h : l.length = n) :
    readBytes n (l ++ rest) = .ok (l, rest) := by
  have hle : n ≤ (l ++ rest).length := by
    rw [List.length_append]; omega
  unfold readBytes
  rw [if_pos hle, List.take_left' h, List.drop_left' h]

/-- Reading n bytes from a buffer of exactly n bytes consumes it whole. -/
theorem readBytes_all {n : Nat} {l : List Nat} (h : l.length = n) :
    readBytes n l = .ok (l, []) := by
  have h2 := @readBytes_exact n l [] h
  simpa using h2

/-- Variant of `readBytes_exact` for a four-byte prefix in cons form. -/
theorem readBytes_cons4 (a0 a1 a2 a3 : Nat) (rest : List Nat) :
    readBytes 4 (a0 :: a1 :: a2 :: a3 :: rest) = .ok ([a0, a1, a2, a3], rest) :=
  readBytes_exact (l := [a0, a1, a2, a3]) rfl

/-- On a buffer made of the header, two opcode bytes and at least four body
bytes, `from_buffer` reduces to table dispatch on the little-endian opcode. -/
theorem from_buffer_cons (op0 op1 : Nat) (body : List Nat)
    (hlen : 4 ≤ body.length) :
    ArtCommand.from_buffer
        (65 :: 114 :: 116 :: 45 :: 78 :: 101 :: 116 :: 0 :: op0 :: op1 :: body) =
      ArtCommand.opcode_to_enum (op0 + 256 * op1) body := by
  have h2 : ARTNET_HEADER.isPrefixOf
      (65 :: 114 :: 116 :: 45 :: 78 :: 101 :: 116 :: 0 :: op0 :: op1 :: body) = true := by
    simp [ARTNET_HEADER, List.isPrefixOf]
  simp [ArtCommand.from_buffer, h2, List.getD]
  intro hc
  exact absurd hc (by simp [MIN_BUFFER_LENGTH]; omega)

/-- On a long-enough buffer with a valid header, `from_buffer` reduces to
table dispatch on the opcode read from bytes 8 and 9. -/
theorem from_buffer_valid_header (buffer : List Nat)
    (h14 : ¬buffer.length < 14)
    (hh : ARTNET_HEADER.isPrefixOf buffer = true) :
    ArtCommand.from_buffer buffer =
      ArtCommand.opcode_to_enum (buffer.getD 8 0 + 256 * buffer.getD 9 0)
        (buffer.drop 10) := by
  simp [ArtCommand.from_buffer, MIN_BUFFER_LENGTH, h14, hh]

/-- Decoding an Output body laid out as eight leading bytes plus trailing
data recovers each field in declaration order; the trailing data is taken
verbatim and the length field merely stores the big-endian value read. -/
theorem output_from_bytes_cons (v0 v1 s p a0 a1 l0 l1 : Nat) (d : List Nat)
    (hpa : a0 + 256 * a1 ≤ 32767) :
    Output.from_bytes (v0 :: v1 :: s :: p :: a0 :: a1 :: l0 :: l1 :: d) =
      .ok ⟨[v0, v1], s, p, ⟨a0 + 256 * a1⟩, ⟨some (256 * l0 + l1)⟩, ⟨d⟩⟩ := by
  have hr : readBytes 2 (v0 :: v1 :: s :: p :: a0 :: a1 :: l0 :: l1 :: d) =
      .ok ([v0, v1], s :: p :: a0 :: a1 :: l0 :: l1 :: d) :=
    readBytes_exact (l := [v0, v1]) rfl
  simp [Output.from_bytes, wrapDeser, hr, readU8, readU16LE,
    PortAddress.from_cursor, PortAddress.try_from_u16, hpa,
    BigEndianLengthOutput.from_cursor, readU16BE, PaddedData.from_cursor,
    Except.mapError, bind, Except.bind]

/-- The padded form of a payload has the rounded-up length. -/
theorem pad_even_len (d : List Nat) :
    (d ++ (if d.length % 2 ≠ 0 then [0] else [])).length =
      PaddedData.len_rounded_up ⟨d⟩ := by
  simp [PaddedData.len_rounded_up]
  split <;> simp_all

/-- Rounding up the already-padded payload changes nothing. -/
theorem len_rounded_up_pad (d : List Nat) :
    PaddedData.len_rounded_up ⟨d ++ (if d.length % 2 ≠ 0 then [0] else [])⟩ =
      PaddedData.len_rounded_up ⟨d⟩ := by
  simp [PaddedData.len_rounded_up]
  split <;> split <;> simp_all <;> omega

/-- The rounded-up length is always even. -/
theorem len_rounded_up_even (d : List Nat) :
    PaddedData.len_rounded_up ⟨d⟩ % 2 = 0 := by
  simp [PaddedData.len_rounded_up]
  split <;> omega

/-- Byte-level form of encoding an Output command whose payload length is
in range: header, opcode 0x5000 little-endian, the fields in order, and the
payload padded to even length. -/
theorem output_encode_eq (v0 v1 s p pa : Nat) (l : BigEndianLengthOutput)
    (d : List Nat) (hd1 : d.length ≠ 0) (hd2 : ¬d.length > 512) :
    ArtCommand.write_to_buffer (.Output ⟨[v0, v1], s, p, ⟨pa⟩, l, ⟨d⟩⟩) =
      .ok (65 :: 114 :: 116 :: 45 :: 78 :: 101 :: 116 :: 0 :: 0 :: 80 ::
        v0 :: v1 :: s :: p :: (pa % 256) :: (pa / 256 % 256) ::
        (PaddedData.len_rounded_up ⟨d⟩ % 65536 / 256 % 256) ::
        (PaddedData.len_rounded_up ⟨d⟩ % 65536 % 256) ::
        (d ++ (if d.length % 2 ≠ 0 then [0] else []))) := by
  simp [ArtCommand.write_to_buffer, ArtCommand.get_opcode, Output.to_bytes,
    Output.to_bytes_state, writeBytes, writeU8, writeU16LE, writeU16BE,
    PortAddress.write_to_buffer, BigEndianLengthOutput.write_to_buffer,
    PaddedData.write_to_buffer, PaddedData.len, hd1, hd2,
    bind, Except.bind, ARTNET_HEADER]

/-- Full round trip for an Output command with an in-range payload:
encoding succeeds, decoding the result succeeds and differs from the
original only in the length field (now holding the computed value) and in
the payload (now carrying the pad byte when the length was odd), and
re-encoding the decoded command reproduces the same bytes. -/
theorem output_roundtrip_full (v0 v1 s p pa : Nat) (l : BigEndianLengthOutput)
    (d : List Nat) (hpa : pa ≤ 32767) (hd1 : 1 ≤ d.length)
    (hd2 : d.length ≤ 512) :
    ∃ bs,
      ArtCommand.write_to_buffer (.Output ⟨[v0, v1], s, p, ⟨pa⟩, l, ⟨d⟩⟩) = .ok bs ∧
      ArtCommand.from_buffer bs =
        .ok (.Output ⟨[v0, v1], s, p, ⟨pa⟩,
          ⟨some (PaddedData.len_rounded_up ⟨d⟩)⟩,
          ⟨d ++ (if d.length % 2 ≠ 0 then [0] else [])⟩⟩) ∧
      ArtCommand.write_to_buffer
        (.Output ⟨[v0, v1], s, p, ⟨pa⟩,
          ⟨some (PaddedData.len_rounded_up ⟨d⟩)⟩,
          ⟨d ++ (if d.length % 2 ≠ 0 then [0] else [])⟩⟩) = .ok bs := by
  have hd0 : d.length ≠ 0 := by omega
  have hdgt : ¬d.length > 512 := by omega
  have hL : PaddedData.len_rounded_up ⟨d⟩ ≤ 512 := by
    simp [PaddedData.len_rounded_up]
    split <;> simp_all <;> omega
  have hL1 : 1 ≤ PaddedData.len_rounded_up ⟨d⟩ := by
    simp [PaddedData.len_rounded_up]
    split <;> omega
  set L := PaddedData.len_rounded_up ⟨d⟩ with hLdef
  set pad : List Nat := if d.length % 2 ≠ 0 then [0] else [] with hpaddef
  have henc := output_encode_eq v0 v1 s p pa l d hd0 hdgt
  refine ⟨_, henc, ?_, ?_⟩
  · have hbody : 4 ≤ (v0 :: v1 :: s :: p :: (pa % 256) :: (pa / 256 % 256) ::
        (L % 65536 / 256 % 256) :: (L % 65536 % 256) :: (d ++ pad)).length := by
      simp
    rw [from_buffer_cons _ _ _ hbody]
    have hop : (0 : Nat) + 256 * 80 = 0x5000 := by norm_num
    rw [hop]
    have hpa2 : pa % 256 + 256 * (pa / 256 % 256) ≤ 32767 := by omega
    have hfrom := output_from_bytes_cons v0 v1 s p (pa % 256) (pa / 256 % 256)
      (L % 65536 / 256 % 256) (L % 65536 % 256) (d ++ pad) hpa2
    have hx : ArtCommand.opcode_to_enum 0x5000
        (v0 :: v1 :: s :: p :: (pa % 256) :: (pa / 256 % 256) ::
          (L % 65536 / 256 % 256) :: (L % 65536 % 256) :: (d ++ pad)) =
        match Output.from_bytes (v0 :: v1 :: s :: p :: (pa % 256) ::
          (pa / 256 % 256) :: (L % 65536 / 256 % 256) :: (L % 65536 % 256) ::
          (d ++ pad)) with
        | .ok output => .ok (.Output output)
        | .error e => .error (.OpcodeError "Output" e) := by
      simp [ArtCommand.opcode_to_enum]
    rw [hx, hfrom]
    have e1 : pa % 256 + 256 * (pa / 256 % 256) = pa := by omega
    have e2 : 256 * (L % 65536 / 256 % 256) + L % 65536 % 256 = L := by omega
    rw [e1, e2]
  · have henc2 := output_encode_eq v0 v1 s p pa ⟨some L⟩ (d ++ pad)
      (by rw [hpaddef, pad_even_len]; omega)
      (by rw [hpaddef, pad_even_len]; omega)
    have hL2 : PaddedData.len_rounded_up ⟨d ++ pad⟩ = L := by
      rw [hpaddef, hLdef]; exact len_rounded_up_pad d
    have heven : (d ++ pad).length % 2 = 0 := by
      have hp := pad_even_len d
      have he := len_rounded_up_even d
      rw [← hpaddef] at hp
      rw [← hLdef] at hp he
      rw [hp]; exact he
    have heven2 : (d.length + pad.length) % 2 = 0 := by simpa using heven
    rw [henc2, hL2]
    simp [heven2, hpaddef, Nat.mod_two_ne_zero]
    split <;> simp <;> omega

/-- Full round trip for a Poll command whose bit-set byte holds only
defined flags. -/
theorem poll_roundtrip_full (v0 v1 ttm dp : Nat)
    (httm : ttm &&& ART_TALK_TO_ME_MASK = ttm) :
    ∃ bs,
      ArtCommand.write_to_buffer (.Poll ⟨[v0, v1], ttm, dp⟩) = .ok bs ∧
      ArtCommand.from_buffer bs = .ok (.Poll ⟨[v0, v1], ttm, dp⟩) := by
  have henc : ArtCommand.write_to_buffer (.Poll ⟨[v0, v1], ttm, dp⟩) =
      .ok (65 :: 114 :: 116 :: 45 :: 78 :: 101 :: 116 :: 0 :: 0 :: 32 ::
        v0 :: v1 :: ttm :: dp :: []) := by
    simp [ArtCommand.write_to_buffer, ArtCommand.get_opcode, Poll.to_bytes,
      writeBytes, writeU8, writeU16LE, ArtTalkToMe.write_to_buffer,
      bind, Except.bind, ARTNET_HEADER]
  refine ⟨_, henc, ?_⟩
  rw [from_buffer_cons _ _ _ (by simp)]
  have hop : (0 : Nat) + 256 * 32 = 0x2000 := by norm_num
  rw [hop]
  have hfrom : Poll.from_bytes [v0, v1, ttm, dp] = .ok ⟨[v0, v1], ttm, dp⟩ := by
    have hr : readBytes 2 ([v0, v1] ++ [ttm, dp]) = .ok ([v0, v1], [ttm, dp]) :=
      readBytes_exact rfl
    simp at hr
    simp [Poll.from_bytes, wrapDeser, hr, ArtTalkToMe.from_cursor, readU8,
      httm, bind, Except.bind, Except.mapError]
  simp [ArtCommand.opcode_to_enum, hfrom]

/-- Full round trip for a PollReply command with well-formed fields: every
one of its 27 fields is recovered exactly. -/
theorem pollreply_roundtrip_full (r : PollReply) (h : r.WF) :
    ∃ bs,
      ArtCommand.write_to_buffer (.PollReply r) = .ok bs ∧
      ArtCommand.from_buffer bs = .ok (.PollReply r) := by
  obtain ⟨h1, h2, h3, h4, h5, h6, h7, h8, h9, h10, h11, h12, h13, h14, h15,
    h16, h17, h18, h19⟩ := h
  obtain ⟨address, port, version, port_address, oem, ubea_version, status_1,
    esta_code, short_name, long_name, node_report, num_ports, port_types,
    good_input, good_output, swin, swout, sw_video, swMacroV, sw_remote,
    spare, style, mac, bind_ip, bind_index, status_2, filler⟩ := r
  simp only [PollReply.WF] at *
  obtain ⟨a0, a1, a2, a3, hnil⟩ : ∃ a0 a1 a2 a3, address = [a0, a1, a2, a3] := by
    match address, h1 with
    | [a0, a1, a2, a3], _ => exact ⟨a0, a1, a2, a3, rfl⟩
  subst hnil
  have henc : ArtCommand.write_to_buffer (.PollReply ⟨[a0, a1, a2, a3], port,
      version, port_address, oem, ubea_version, status_1, esta_code,
      short_name, long_name, node_report, num_ports, port_types, good_input,
      good_output, swin, swout, sw_video, swMacroV, sw_remote, spare, style,
      mac, bind_ip, bind_index, status_2, filler⟩) =
      .ok (65 :: 114 :: 116 :: 45 :: 78 :: 101 :: 116 :: 0 :: 0 :: 33 ::
        a0 :: a1 :: a2 :: a3 :: (port % 256) :: (port / 256 % 256) ::
        (version ++ port_address ++ oem ++ (ubea_version :: status_1 ::
          (esta_code % 256) :: (esta_code / 256 % 256) ::
          (short_name ++ long_name ++ node_report ++ num_ports ++ port_types ++
            good_input ++ good_output ++ swin ++ swout ++ (sw_video :: swMacroV ::
              sw_remote :: (spare ++ (style :: (mac ++ bind_ip ++ (bind_index ::
                status_2 :: filler))))))))) := by
    simp [ArtCommand.write_to_buffer, ArtCommand.get_opcode, PollReply.to_bytes,
      writeBytes, writeU8, writeU16LE, bind, Except.bind, ARTNET_HEADER]
  refine ⟨_, henc, ?_⟩
  rw [from_buffer_cons _ _ _ (by simp)]
  have hop : (0 : Nat) + 256 * 33 = 0x2100 := by norm_num
  rw [hop]
  have eport : port % 256 + 256 * (port / 256 % 256) = port := by omega
  have eesta : esta_code % 256 + 256 * (esta_code / 256 % 256) = esta_code := by
    omega
  have hfrom : PollReply.from_bytes
      (a0 :: a1 :: a2 :: a3 :: (port % 256) :: (port / 256 % 256) ::
        (version ++ port_address ++ oem ++ (ubea_version :: status_1 ::
          (esta_code % 256) :: (esta_code / 256 % 256) ::
          (short_name ++ long_name ++ node_report ++ num_ports ++ port_types ++
            good_input ++ good_output ++ swin ++ swout ++ (sw_video :: swMacroV ::
              sw_remote :: (spare ++ (style :: (mac ++ bind_ip ++ (bind_index ::
                status_2 :: filler))))))))) =
      .ok ⟨[a0, a1, a2, a3], port, version, port_address, oem, ubea_version,
        status_1, esta_code, short_name, long_name, node_report, num_ports,
        port_types, good_input, good_output, swin, swout, sw_video, swMacroV,
        sw_remote, spare, style, mac, bind_ip, bind_index, status_2, filler⟩ := by
    simp [PollReply.from_bytes, wrapDeser, readU8, readU16LE,
      readBytes_exact, readBytes_all, readBytes_cons4, List.append_assoc,
      h3, h4, h5, h7, h8, h9, h10, h11, h12, h13, h14, h15, h16, h17, h18, h19,
      eport, eesta, bind, Except.bind, Except.mapError]
  simp only [List.append_assoc] at hfrom
  simp [ArtCommand.opcode_to_enum, hfrom]

theorem opcode_to_enum_unknown (code : Nat) (data : List Nat)
    (h : code ∉ OPCODES) :
    ArtCommand.opcode_to_enum code data = .error (.UnknownOpcode code) := by
  have hn1 : ¬(code = 0x2000) := fun e => h (by subst e; decide)
  have hn2 : ¬(code = 0x2100) := fun e => h (by subst e; decide)
  have hn3 : ¬(code = 0x2300) := fun e => h (by subst e; decide)
  have hn4 : ¬(code = 0x2400) := fun e => h (by subst e; decide)
  have hn5 : ¬(code = 0x5000) := fun e => h (by subst e; decide)
  have hn6 : ¬(code = 0x5100) := fun e => h (by subst e; decide)
  have hn7 : ¬(code = 0x5200) := fun e => h (by subst e; decide)
  have hn8 : ¬(code = 0x6000) := fun e => h (by subst e; decide)
  have hn9 : ¬(code = 0x7000) := fun e => h (by subst e; decide)
  have hn10 : ¬(code = 0x8000) := fun e => h (by subst e; decide)
  have hn11 : ¬(code = 0x8100) := fun e => h (by subst e; decide)
  have hn12 : ¬(code = 0x8200) := fun e => h (by subst e; decide)
  have hn13 : ¬(code = 0x8300) := fun e => h (by subst e; decide)
  have hn14 : ¬(code = 0x8400) := fun e => h (by subst e; decide)
  have hn15 : ¬(code = 0xA010) := fun e => h (by subst e; decide)
  have hn16 : ¬(code = 0xA020) := fun e => h (by subst e; decide)
  have hn17 : ¬(code = 0xA040) := fun e => h (by subst e; decide)
  have hn18 : ¬(code = 0xF000) := fun e => h (by subst e; decide)
  have hn19 : ¬(code = 0xF100) := fun e => h (by subst e; decide)
  have hn20 : ¬(code = 0xF200) := fun e => h (by subst e; decide)
  have hn21 : ¬(code = 0xF300) := fun e => h (by subst e; decide)
  have hn22 : ¬(code = 0xF400) := fun e => h (by subst e; decide)
  have hn23 : ¬(code = 0xF500) := fun e => h (by subst e; decide)
  have hn24 : ¬(code = 0xF600) := fun e => h (by subst e; decide)
  have hn25 : ¬(code = 0xF800) := fun e => h (by subst e; decide)
  have hn26 : ¬(code = 0xF900) := fun e => h (by subst e; decide)
  have hn27 : ¬(code = 0x9000) := fun e => h (by subst e; decide)
  have hn28 : ¬(code = 0x9100) := fun e => h (by subst e; decide)
  have hn29 : ¬(code = 0x9200) := fun e => h (by subst e; decide)
  have hn30 : ¬(code = 0x9300) := fun e => h (by subst e; decide)
  have hn31 : ¬(code = 0x9700) := fun e => h (by subst e; decide)
  have hn32 : ¬(code = 0x9800) := fun e => h (by subst e; decide)
  have hn33 : ¬(code = 0x9900) := fun e => h (by subst e; decide)
  have hn34 : ¬(code = 0x9A00) := fun e => h (by subst e; decide)
  have hn35 : ¬(code = 0x9B00) := fun e => h (by subst e; decide)
  simp only [ArtCommand.opcode_to_enum, if_neg hn1, if_neg hn2, if_neg hn3, if_neg hn4, if_neg hn5, if_neg hn6, if_neg hn7, if_neg hn8, if_neg hn9, if_neg hn10, if_neg hn11, if_neg hn12, if_neg hn13, if_neg hn14, if_neg hn15, if_neg hn16, if_neg hn17, if_neg hn18, if_neg hn19, if_neg hn20, if_neg hn21, if_neg hn22, if_neg hn23, if_neg hn24, if_neg hn25, if_neg hn26, if_neg hn27, if_neg hn28, if_neg hn29, if_neg hn30, if_neg hn31, if_neg hn32, if_neg hn33, if_neg hn34, if_neg hn35]

theorem opcode_to_enum_result (code : Nat) (data : List Nat) (h : code ∈ OPCODES) :
    (∃ c, ArtCommand.opcode_to_enum code data = .ok c) ∨
    (∃ name e, ArtCommand.opcode_to_enum code data =
      .error (.OpcodeError name e)) := by
  fin_cases h
  all_goals try (exact Or.inl ⟨_, rfl⟩)
  · rcases hb : Poll.from_bytes data with e | v
    · exact Or.inr ⟨"Poll", e, by simp [ArtCommand.opcode_to_enum, hb]⟩
    · exact Or.inl ⟨.Poll v, by simp [ArtCommand.opcode_to_enum, hb]⟩
  · rcases hb : PollReply.from_bytes data with e | v
    · exact Or.inr ⟨"PollReply", e, by simp [ArtCommand.opcode_to_enum, hb]⟩
    · exact Or.inl ⟨.PollReply v, by simp [ArtCommand.opcode_to_enum, hb]⟩
  · rcases hb : Output.from_bytes data with e | v
    · exact Or.inr ⟨"Output", e, by simp [ArtCommand.opcode_to_enum, hb]⟩
    · exact Or.inl ⟨.Output v, by simp [ArtCommand.opcode_to_enum, hb]⟩

/-- The PaddedData writer leaves its receiver untouched on every path. -/
theorem padded_write_receiver (p : PaddedData) (buffer : List Nat) :
    (p.write_to_buffer buffer).2.1 = p := by
  simp only [PaddedData.write_to_buffer]
  split_ifs <;> rfl

/-- An upper bound on the payload length is preserved by rounding up,
because an odd length of at most 512 is at most 511. -/
theorem len_rounded_up_le (p : PaddedData) (h : p.len ≤ 512) :
    p.len_rounded_up ≤ 512 := by
  simp [PaddedData.len_rounded_up, PaddedData.len] at *
  split <;> omega

set_option maxRecDepth 10000 in
/-- C2: encoding ArtCommand::Output with data [0xFF] and every other field
left at its default succeeds and yields exactly the 20-byte sequence:
"Art-Net\x00", opcode 0x5000 little-endian, version 0x000E, sequence 0,
physical 0, port_address 1 little-endian, computed length 2 big-endian,
and the data byte padded with one zero byte. -/
theorem c2_output_single_value_encoding :
    ArtCommand.write_to_buffer (.Output { Output.default with data := ⟨[255]⟩ }) =
      .ok [65, 114, 116, 45, 78, 101, 116, 0, 0x00, 0x50, 0x00, 0x0E,
        0x00, 0x00, 0x01, 0x00, 0x00, 0x02, 0xFF, 0x00] := by
  decide

/-- C3: the PaddedData writer succeeds exactly when the stored logical
byte count is between 1 and 512: on success it appends the stored bytes
followed by one zero byte when the count is odd; for a count of 0 or above
512 it returns a size error and leaves the output buffer untouched. -/
theorem c3_padded_data_write_spec (p : PaddedData) (buffer : List Nat) :
    (1 ≤ p.len ∧ p.len ≤ 512 →
      p.write_to_buffer buffer =
        (none, p, buffer ++ p.inner ++ (if p.len % 2 = 1 then [0] else []))) ∧
    (p.len = 0 →
      p.write_to_buffer buffer =
        (some (.MessageSizeInvalid [] 2 512), p, buffer)) ∧
    (512 < p.len →
      p.write_to_buffer buffer =
        (some (.MessageSizeInvalid p.inner 2 512), p, buffer)) := by
  unfold PaddedData.write_to_buffer PaddedData.len
  refine ⟨fun h => ?_, fun h => ?_, fun h => ?_⟩
  · rw [if_neg (by omega), if_neg (by omega)]
    rcases Nat.mod_two_eq_zero_or_one p.inner.length with he | ho
    · rw [if_neg (by omega : ¬p.inner.length % 2 ≠ 0),
        if_neg (by omega : ¬p.inner.length % 2 = 1)]
    · rw [if_pos (by omega : p.inner.length % 2 ≠ 0),
        if_pos (by omega : p.inner.length % 2 = 1)]
  · rw [if_pos h]
  · rw [if_neg (by omega), if_pos (by omega)]

/-- Witness for C3 at a one-byte payload. -/
theorem c3_witness :
    PaddedData.write_to_buffer ⟨[255]⟩ [9] = (none, ⟨[255]⟩, [9, 255, 0]) :=
  (c3_padded_data_write_spec ⟨[255]⟩ [9]).1 (by decide)

set_option maxRecDepth 10000 in
/-- C4: encoding the Output length field writes the rounded-up length of
the sibling data taken from the encode context as a big-endian 16-bit
value, for any stored length value (including one from a previous decode);
decoding reads a raw big-endian value and stores it; the decoded value
drives no other field (the data field is whatever trails the buffer,
whatever the length bytes say); 512- and 1-byte payloads give length bytes
[0x02, 0x00] and [0x00, 0x02]. -/
theorem c4_computed_length_field :
    (∀ (l1 l2 : BigEndianLengthOutput) (ctx : Output) (buffer : List Nat),
      l1.write_to_buffer ctx buffer = l2.write_to_buffer ctx buffer) ∧
    (∀ (l : BigEndianLengthOutput) (ctx : Output) (buffer : List Nat),
      ctx.data.len ≤ 512 →
      l.write_to_buffer ctx buffer =
        buffer ++ [ctx.data.len_rounded_up / 256, ctx.data.len_rounded_up % 256]) ∧
    (∀ b0 b1 : Nat, ∀ rest : List Nat,
      BigEndianLengthOutput.from_cursor (b0 :: b1 :: rest) =
        .ok (⟨some (256 * b0 + b1)⟩, rest)) ∧
    (∀ v0 v1 s p a0 a1 l0 l1 : Nat, ∀ d : List Nat, a0 + 256 * a1 ≤ 32767 →
      Output.from_bytes (v0 :: v1 :: s :: p :: a0 :: a1 :: l0 :: l1 :: d) =
        .ok ⟨[v0, v1], s, p, ⟨a0 + 256 * a1⟩, ⟨some (256 * l0 + l1)⟩, ⟨d⟩⟩) ∧
    (∀ l : BigEndianLengthOutput,
      l.write_to_buffer { Output.default with data := ⟨List.replicate 512 255⟩ } [] =
        [0x02, 0x00] ∧
      l.write_to_buffer { Output.default with data := ⟨[255]⟩ } [] = [0x00, 0x02]) := by
  refine ⟨fun l1 l2 ctx buffer => rfl, ?_, fun b0 b1 rest => rfl,
    fun v0 v1 s p a0 a1 l0 l1 d h => output_from_bytes_cons v0 v1 s p a0 a1 l0 l1 d h,
    fun l => ⟨rfl, rfl⟩⟩
  intro l ctx buffer h
  have hle := len_rounded_up_le ctx.data h
  have e1 : ctx.data.len_rounded_up % 65536 / 256 % 256 =
      ctx.data.len_rounded_up / 256 := by omega
  have e2 : ctx.data.len_rounded_up % 65536 % 256 =
      ctx.data.len_rounded_up % 256 := by omega
  rw [BigEndianLengthOutput.write_to_buffer, writeU16BE, e1, e2]

/-- Witness for C4: a stored length of 9999 is ignored; the written bytes
come from the one-byte sibling payload, and the decoded length drives
nothing. -/
theorem c4_witness :
    BigEndianLengthOutput.write_to_buffer ⟨some 9999⟩
        { Output.default with data := ⟨[255]⟩ } [] = [0, 2] ∧
    Output.from_bytes [0, 14, 0, 0, 1, 0, 99, 99, 7, 8, 9] =
      .ok ⟨[0, 14], 0, 0, ⟨1⟩, ⟨some (256 * 99 + 99)⟩, ⟨[7, 8, 9]⟩⟩ := by
  constructor
  · have h := (c4_computed_length_field.2.1 ⟨some 9999⟩
      { Output.default with data := ⟨[255]⟩ } []) (by decide)
    simpa [PaddedData.len_rounded_up] using h
  · exact c4_computed_length_field.2.2.2.1 0 14 0 0 1 0 99 99 [7, 8, 9] (by decide)

/-- C6: PortAddress construction from a u8 always succeeds and is in
range; from a u16 it succeeds exactly for values up to 32767; from an i32
exactly for 0..=32767, with a range error otherwise; 0 and 32767 succeed
and 32768 fails; wire decode reads little-endian 16 bits and applies the
same bound check, failing rather than truncating. -/
theorem c6_port_address_bounds :
    (∀ v : Nat, v < 256 →
      PortAddress.from_u8 v = ⟨v⟩ ∧ (PortAddress.from_u8 v).value ≤ 32767) ∧
    (∀ v : Nat,
      (v ≤ 32767 → PortAddress.try_from_u16 v = .ok ⟨v⟩) ∧
      (32767 < v →
        PortAddress.try_from_u16 v = .error (.InvalidPortAddress (Int.ofNat v)))) ∧
    (∀ v : Int,
      (0 ≤ v ∧ v ≤ 32767 → PortAddress.try_from_i32 v = .ok ⟨v.toNat⟩) ∧
      (¬(0 ≤ v ∧ v ≤ 32767) →
        PortAddress.try_from_i32 v = .error (.InvalidPortAddress v))) ∧
    (PortAddress.try_from_u16 0 = .ok ⟨0⟩ ∧
      PortAddress.try_from_u16 32767 = .ok ⟨32767⟩ ∧
      PortAddress.try_from_u16 32768 = .error (.InvalidPortAddress 32768)) ∧
    (∀ b0 b1 : Nat, ∀ rest : List Nat,
      (b0 + 256 * b1 ≤ 32767 →
        PortAddress.from_cursor (b0 :: b1 :: rest) = .ok (⟨b0 + 256 * b1⟩, rest)) ∧
      (32767 < b0 + 256 * b1 →
        PortAddress.from_cursor (b0 :: b1 :: rest) =
          .error (.InvalidPortAddress (Int.ofNat (b0 + 256 * b1))))) := by
  refine ⟨fun v h => ⟨rfl, by simp [PortAddress.from_u8]; omega⟩,
    fun v => ⟨fun h => ?_, fun h => ?_⟩,
    fun v => ⟨fun h => ?_, fun h => ?_⟩,
    ⟨by decide, by decide, by decide⟩,
    fun b0 b1 rest => ⟨fun h => ?_, fun h => ?_⟩⟩
  · rw [PortAddress.try_from_u16, if_pos h]
  · rw [PortAddress.try_from_u16, if_neg (by omega)]
  · rw [PortAddress.try_from_i32, if_pos h]
  · rw [PortAddress.try_from_i32, if_neg h]
  · simp [PortAddress.from_cursor, readU16LE, bind, Except.bind,
      PortAddress.try_from_u16, h]
  · have hneg : ¬(b0 + 256 * b1 ≤ 32767) := by omega
    simp [PortAddress.from_cursor, readU16LE, bind, Except.bind,
      PortAddress.try_from_u16, hneg]

/-- Witness for C6 at the boundary values and a concrete wire decode. -/
theorem c6_witness :
    ((0 : Nat) < 256 ∧ PortAddress.from_u8 0 = ⟨0⟩ ∧
      (PortAddress.from_u8 0).value ≤ 32767) ∧
    PortAddress.try_from_u16 32767 = .ok ⟨32767⟩ ∧
    PortAddress.try_from_i32 32768 = .error (.InvalidPortAddress 32768) ∧
    PortAddress.from_cursor [0, 128, 9] = .error (.InvalidPortAddress 32768) := by
  refine ⟨⟨by decide, c6_port_address_bounds.1 0 (by decide)⟩,
    (c6_port_address_bounds.2.1 32767).1 (by decide),
    (c6_port_address_bounds.2.2.1 32768).2 (by decide), ?_⟩
  have h := (c6_port_address_bounds.2.2.2.2 0 128 [9]).2 (by decide)
  simpa using h

/-- C9: encoding an Output body never mutates the packet value: the
receiver state returned by the translated encode equals the input on every
path (including the odd-length padding path, where the pad byte goes to
the output buffer, not the stored data), so encoding twice in succession
yields identical bytes. -/
theorem c9_encode_pure (o : Output) :
    (∀ buffer : List Nat, (o.data.write_to_buffer buffer).2.1 = o.data) ∧
    o.to_bytes_state.2 = o ∧
    (o.to_bytes_state.2).to_bytes = o.to_bytes := by
  have hmain : o.to_bytes_state.2 = o := by
    unfold Output.to_bytes_state
    dsimp only
    split
    next e d rest heq =>
      have hd := (padded_write_receiver o.data _).symm.trans
        (congrArg (fun t => t.2.1) heq)
      simp at hd
      simp [← hd]
    next d rest heq =>
      have hd := (padded_write_receiver o.data _).symm.trans
        (congrArg (fun t => t.2.1) heq)
      simp at hd
      simp [← hd]
  exact ⟨fun buffer => padded_write_receiver o.data buffer, hmain, by rw [hmain]⟩

/-- Witness for C9 at an Output with a one-byte (odd) payload: the
receiver state after encoding is unchanged. -/
theorem c9_witness :
    (Output.to_bytes_state ⟨[0, 14], 0, 0, ⟨1⟩, ⟨none⟩, ⟨[255]⟩⟩).2 =
      ⟨[0, 14], 0, 0, ⟨1⟩, ⟨none⟩, ⟨[255]⟩⟩ :=
  (c9_encode_pure ⟨[0, 14], 0, 0, ⟨1⟩, ⟨none⟩, ⟨[255]⟩⟩).2.1

/-- C10: PaddedData decode always succeeds, taking every remaining byte
with no length check; hence an Output body with empty or oversized
trailing data decodes successfully, and re-encoding the decoded value
fails with a size error. -/
theorem c10_padded_decode_unchecked :
    (∀ input : List Nat, PaddedData.from_cursor input = .ok (⟨input⟩, [])) ∧
    (∀ v0 v1 s p a0 a1 l0 l1 : Nat, a0 + 256 * a1 ≤ 32767 →
      Output.from_bytes [v0, v1, s, p, a0, a1, l0, l1] =
        .ok ⟨[v0, v1], s, p, ⟨a0 + 256 * a1⟩, ⟨some (256 * l0 + l1)⟩, ⟨[]⟩⟩ ∧
      Output.to_bytes ⟨[v0, v1], s, p, ⟨a0 + 256 * a1⟩, ⟨some (256 * l0 + l1)⟩, ⟨[]⟩⟩ =
        .error (.SerializeError "Could not serialize field Output::data"
          (.MessageSizeInvalid [] 2 512))) ∧
    (∀ v0 v1 s p a0 a1 l0 l1 : Nat, ∀ d : List Nat, a0 + 256 * a1 ≤ 32767 →
      512 < d.length →
      Output.from_bytes (v0 :: v1 :: s :: p :: a0 :: a1 :: l0 :: l1 :: d) =
        .ok ⟨[v0, v1], s, p, ⟨a0 + 256 * a1⟩, ⟨some (256 * l0 + l1)⟩, ⟨d⟩⟩ ∧
      Output.to_bytes ⟨[v0, v1], s, p, ⟨a0 + 256 * a1⟩, ⟨some (256 * l0 + l1)⟩, ⟨d⟩⟩ =
        .error (.SerializeError "Could not serialize field Output::data"
          (.MessageSizeInvalid d 2 512))) := by
  refine ⟨fun input => rfl, fun v0 v1 s p a0 a1 l0 l1 h =>
    ⟨output_from_bytes_cons v0 v1 s p a0 a1 l0 l1 [] h, ?_⟩,
    fun v0 v1 s p a0 a1 l0 l1 d h h512 =>
    ⟨output_from_bytes_cons v0 v1 s p a0 a1 l0 l1 d h, ?_⟩⟩
  · simp [Output.to_bytes, Output.to_bytes_state, PaddedData.write_to_buffer,
      PaddedData.len]
  · have hne : d ≠ [] := by
      intro he
      subst he
      simp at h512
    simp [Output.to_bytes, Output.to_bytes_state, PaddedData.write_to_buffer,
      PaddedData.len, hne, (by omega : d.length > 512)]

/-- Witness for C10: a body of exactly the eight leading bytes decodes to
an empty payload whose re-encoding fails. -/
theorem c10_witness :
    Output.from_bytes [0, 14, 0, 0, 1, 0, 0, 0] =
      .ok ⟨[0, 14], 0, 0, ⟨1⟩, ⟨some 0⟩, ⟨[]⟩⟩ ∧
    Output.to_bytes ⟨[0, 14], 0, 0, ⟨1⟩, ⟨some 0⟩, ⟨[]⟩⟩ =
      .error (.SerializeError "Could not serialize field Output::data"
        (.MessageSizeInvalid [] 2 512)) :=
  c10_padded_decode_unchecked.2.1 0 14 0 0 1 0 0 0 (by decide)


set_option maxRecDepth 100000 in
/-- C7 (amended): every inert variant encodes to exactly the 8-byte header
followed by its 2-byte little-endian table opcode with an empty body
(10 bytes); decoding those same bytes fails with a too-short error because
`from_buffer` requires at least 14 bytes, and the variant is recovered
only when the buffer is extended to the 14-byte minimum. -/
theorem c7_inert_roundtrip :
    (∀ c : ArtCommand, c.isInert = true → ∃ op : Nat, c.get_opcode = .ok (op, [])) ∧
    (∀ (c : ArtCommand) (op : Nat), c.isInert = true → c.get_opcode = .ok (op, []) →
      op ∈ OPCODES ∧
      c.write_to_buffer = .ok (ARTNET_HEADER ++ [op % 256, op / 256 % 256]) ∧
      ArtCommand.from_buffer (ARTNET_HEADER ++ [op % 256, op / 256 % 256]) =
        .error (.MessageTooShort (ARTNET_HEADER ++ [op % 256, op / 256 % 256]) 14) ∧
      ArtCommand.from_buffer
        (ARTNET_HEADER ++ [op % 256, op / 256 % 256] ++ [0, 0, 0, 0]) = .ok c) := by
  constructor
  · intro c h
    cases c <;> first
      | exact Bool.noConfusion h
      | exact ⟨_, rfl⟩
  · intro c op h hop
    cases c <;> first
      | exact Bool.noConfusion h
      | (simp only [ArtCommand.get_opcode, Except.ok.injEq, Prod.mk.injEq,
           and_true] at hop
         subst hop
         exact ⟨by decide, by decide, by decide, by decide⟩)



set_option maxRecDepth 10000 in
/-- C7 counterexample: the inert DiagData variant encodes to a 10-byte
buffer which `from_buffer` rejects as too short, so the claimed empty-body
round trip fails on the encoder's own output. -/
theorem c7_counterexample :
    ArtCommand.write_to_buffer .DiagData =
      .ok [65, 114, 116, 45, 78, 101, 116, 0, 0, 35] ∧
    ArtCommand.from_buffer [65, 114, 116, 45, 78, 101, 116, 0, 0, 35] =
      .error (.MessageTooShort [65, 114, 116, 45, 78, 101, 116, 0, 0, 35] 14) := by
  decide

set_option maxRecDepth 10000 in
/-- Witness for C7 at the DiagData variant and its opcode 0x2300. -/
theorem c7_witness :
    ArtCommand.isInert .DiagData = true ∧
    ((0x2300 : Nat) ∈ OPCODES ∧
      ArtCommand.write_to_buffer .DiagData =
        .ok (ARTNET_HEADER ++ [0x2300 % 256, 0x2300 / 256 % 256]) ∧
      ArtCommand.from_buffer (ARTNET_HEADER ++ [0x2300 % 256, 0x2300 / 256 % 256]) =
        .error (.MessageTooShort
          (ARTNET_HEADER ++ [0x2300 % 256, 0x2300 / 256 % 256]) 14) ∧
      ArtCommand.from_buffer
        (ARTNET_HEADER ++ [0x2300 % 256, 0x2300 / 256 % 256] ++ [0, 0, 0, 0]) =
        .ok .DiagData) :=
  ⟨rfl, c7_inert_roundtrip.2 .DiagData 0x2300 rfl rfl⟩

set_option maxRecDepth 10000 in
/-- C8 counterexample: a valid-header buffer with opcode 0x9700 and a
frame-type byte of 0xFF decodes successfully to the inert OpTimeCode
variant — no timecode body is parsed and no decode error is raised. -/
theorem c8_counterexample :
    ArtCommand.from_buffer
        ([65, 114, 116, 45, 78, 101, 116, 0] ++ [0x00, 0x97] ++
          [0, 14, 0, 0, 0, 0, 0, 0, 0xFF]) = .ok .OpTimeCode := by
  decide

/-- C8 (amended): in this version the router maps opcode 0x9700 to the
inert OpTimeCode variant and never parses the body; the stand-alone
Timecode codec in timecode.rs does parse version, filler1, stream_id,
frames, seconds, minutes, hours and frame_type in declaration order, with
exactly the byte values 0-3 accepted as frame types and every other byte
a decode error. -/
theorem c8_timecode_amended :
    (∀ data : List Nat, ArtCommand.opcode_to_enum 0x9700 data = .ok .OpTimeCode) ∧
    (FrameType.try_from 0 = .ok .Film ∧ FrameType.try_from 1 = .ok .EBU ∧
      FrameType.try_from 2 = .ok .DF ∧ FrameType.try_from 3 = .ok .SMPTE) ∧
    (∀ v : Nat, 3 < v →
      FrameType.try_from v = .error (.InvalidTimecodeFrameType v)) ∧
    (∀ v0 v1 f sid fr se mi ho ftb : Nat, ∀ rest : List Nat, ∀ ft : FrameType,
      FrameType.try_from ftb = .ok ft →
      Timecode.from_bytes
          (v0 :: v1 :: f :: sid :: fr :: se :: mi :: ho :: ftb :: rest) =
        .ok ⟨[v0, v1], f, sid, fr, se, mi, ho, ft⟩) ∧
    (∀ v0 v1 f sid fr se mi ho ftb : Nat, ∀ rest : List Nat, 3 < ftb →
      Timecode.from_bytes
          (v0 :: v1 :: f :: sid :: fr :: se :: mi :: ho :: ftb :: rest) =
        .error (.DeserializeError "Could not deserialize field Timecode::frame_type"
          (.InvalidTimecodeFrameType ftb))) := by
  have htf : ∀ v : Nat, 3 < v →
      FrameType.try_from v = .error (.InvalidTimecodeFrameType v) := by
    intro v hv
    obtain ⟨n, rfl⟩ : ∃ n, v = n + 4 := ⟨v - 4, by omega⟩
    rfl
  have hfromRead : ∀ v0 v1 f sid fr se mi ho ftb : Nat, ∀ rest : List Nat,
     Timecode.from_bytes (v0 :: v1 :: f :: sid :: fr :: se :: mi :: ho :: ftb :: rest) =
       match FrameType.try_from ftb with
       | .ok ft => .ok ⟨[v0, v1], f, sid, fr, se, mi, ho, ft⟩
       | .error e => .error (.DeserializeError
           "Could not deserialize field Timecode::frame_type" e) := by
    intro v0 v1 f sid fr se mi ho ftb rest
    have hr : readBytes 2 (v0 :: v1 :: f :: sid :: fr :: se :: mi :: ho :: ftb :: rest) =
        .ok ([v0, v1], f :: sid :: fr :: se :: mi :: ho :: ftb :: rest) :=
      readBytes_exact (l := [v0, v1]) rfl
    rcases hft : FrameType.try_from ftb with e | ft <;>
      simp [Timecode.from_bytes, wrapDeser, hr, readU8, FrameType.from_cursor,
        hft, bind, Except.bind, Except.mapError]
  refine ⟨fun data => rfl, ⟨rfl, rfl, rfl, rfl⟩, htf, ?_, ?_⟩
  · intro v0 v1 f sid fr se mi ho ftb rest ft hft
    rw [hfromRead v0 v1 f sid fr se mi ho ftb rest, hft]
  · intro v0 v1 f sid fr se mi ho ftb rest hv
    rw [hfromRead v0 v1 f sid fr se mi ho ftb rest, htf ftb hv]



/-- Witness for C8 on a concrete nine-byte timecode body, accepted with
frame type 2 (DF) and rejected with frame-type byte 9. -/
theorem c8_witness :
    Timecode.from_bytes [0, 14, 0, 0, 1, 2, 3, 4, 2] =
      .ok ⟨[0, 14], 0, 0, 1, 2, 3, 4, .DF⟩ ∧
    (3 : Nat) < 9 ∧
    Timecode.from_bytes [0, 14, 0, 0, 1, 2, 3, 4, 9] =
      .error (.DeserializeError "Could not deserialize field Timecode::frame_type"
        (.InvalidTimecodeFrameType 9)) := by
  refine ⟨?_, by decide, ?_⟩
  · exact c8_timecode_amended.2.2.2.1 0 14 0 0 1 2 3 4 2 [] .DF (by decide)
  · exact c8_timecode_amended.2.2.2.2 0 14 0 0 1 2 3 4 9 [] (by decide)

/-- C5: `from_buffer` fails with a too-short error below 14 bytes; at 14
bytes or more it fails with an invalid-header error exactly when the first
8 bytes differ from the literal; with a valid header it reads bytes 8-9 as
a little-endian opcode and fails with an unknown-opcode error exactly when
that opcode is not in the fixed table; and a body codec failure is
returned wrapped once with the opcode's name. -/
theorem c5_from_buffer_errors :
    (∀ buffer : List Nat, buffer.length < 14 →
      ArtCommand.from_buffer buffer = .error (.MessageTooShort buffer 14)) ∧
    (∀ buffer : List Nat, 14 ≤ buffer.length →
      ARTNET_HEADER.isPrefixOf buffer = false →
      ArtCommand.from_buffer buffer = .error (.InvalidArtnetHeader buffer)) ∧
    (∀ buffer : List Nat, 14 ≤ buffer.length →
      ARTNET_HEADER.isPrefixOf buffer = true →
      ∀ b, ArtCommand.from_buffer buffer ≠ .error (.InvalidArtnetHeader b)) ∧
    (∀ op0 op1 : Nat, ∀ body : List Nat, 4 ≤ body.length →
      (op0 + 256 * op1 ∉ OPCODES →
        ArtCommand.from_buffer (ARTNET_HEADER ++ op0 :: op1 :: body) =
          .error (.UnknownOpcode (op0 + 256 * op1))) ∧
      (op0 + 256 * op1 ∈ OPCODES →
        ∀ c, ArtCommand.from_buffer (ARTNET_HEADER ++ op0 :: op1 :: body) ≠
          .error (.UnknownOpcode c))) ∧
    (∀ body : List Nat, 4 ≤ body.length →
      (∀ e, Poll.from_bytes body = .error e →
        ArtCommand.from_buffer (ARTNET_HEADER ++ 0x00 :: 0x20 :: body) =
          .error (.OpcodeError "Poll" e)) ∧
      (∀ e, PollReply.from_bytes body = .error e →
        ArtCommand.from_buffer (ARTNET_HEADER ++ 0x00 :: 0x21 :: body) =
          .error (.OpcodeError "PollReply" e)) ∧
      (∀ e, Output.from_bytes body = .error e →
        ArtCommand.from_buffer (ARTNET_HEADER ++ 0x00 :: 0x50 :: body) =
          .error (.OpcodeError "Output" e))) := by
  refine ⟨?_, ?_, ?_, ?_, ?_⟩
  · intro buffer h
    simp [ArtCommand.from_buffer, MIN_BUFFER_LENGTH, h]
  · intro buffer h14 hh
    simp [ArtCommand.from_buffer, MIN_BUFFER_LENGTH,
      (by omega : ¬buffer.length < 14), hh]
    omega
  · intro buffer h14 hh b
    rw [from_buffer_valid_header buffer (by omega) hh]
    by_cases hmem : buffer.getD 8 0 + 256 * buffer.getD 9 0 ∈ OPCODES
    · rcases opcode_to_enum_result _ (buffer.drop 10) hmem with ⟨c, hc⟩ | ⟨n, e, hc⟩ <;>
        rw [hc] <;> simp
    · rw [opcode_to_enum_unknown _ _ hmem]
      simp
  · intro op0 op1 body hlen
    have hred : ArtCommand.from_buffer (ARTNET_HEADER ++ op0 :: op1 :: body) =
        ArtCommand.opcode_to_enum (op0 + 256 * op1) body := by
      have : ARTNET_HEADER ++ op0 :: op1 :: body =
          65 :: 114 :: 116 :: 45 :: 78 :: 101 :: 116 :: 0 :: op0 :: op1 :: body := rfl
      rw [this, from_buffer_cons _ _ _ hlen]
    constructor
    · intro hmem
      rw [hred, opcode_to_enum_unknown _ _ hmem]
    · intro hmem c
      rw [hred]
      rcases opcode_to_enum_result _ body hmem with ⟨c2, hc⟩ | ⟨n, e, hc⟩ <;>
        simp [hc]
  · intro body hlen
    have hred : ∀ op0 op1 : Nat, ArtCommand.from_buffer (ARTNET_HEADER ++ op0 :: op1 :: body) =
        ArtCommand.opcode_to_enum (op0 + 256 * op1) body := by
      intro op0 op1
      have : ARTNET_HEADER ++ op0 :: op1 :: body =
          65 :: 114 :: 116 :: 45 :: 78 :: 101 :: 116 :: 0 :: op0 :: op1 :: body := rfl
      rw [this, from_buffer_cons _ _ _ hlen]
    refine ⟨fun e he => ?_, fun e he => ?_, fun e he => ?_⟩
    · rw [hred]
      norm_num
      simp [ArtCommand.opcode_to_enum, he]
    · rw [hred]
      norm_num
      simp [ArtCommand.opcode_to_enum, he]
    · rw [hred]
      norm_num
      simp [ArtCommand.opcode_to_enum, he]



set_option maxRecDepth 10000 in
/-- Witness for C5: a 3-byte buffer, a 14-byte garbage buffer, an unknown
opcode 0x0101, and an Output body that runs out of bytes mid-field. -/
theorem c5_witness :
    (([1, 2, 3] : List Nat).length < 14 ∧
      ArtCommand.from_buffer [1, 2, 3] = .error (.MessageTooShort [1, 2, 3] 14)) ∧
    (ARTNET_HEADER.isPrefixOf [9, 9, 9, 9, 9, 9, 9, 9, 9, 9, 9, 9, 9, 9] = false ∧
      ArtCommand.from_buffer [9, 9, 9, 9, 9, 9, 9, 9, 9, 9, 9, 9, 9, 9] =
        .error (.InvalidArtnetHeader [9, 9, 9, 9, 9, 9, 9, 9, 9, 9, 9, 9, 9, 9])) ∧
    ((1 + 256 * 1 : Nat) ∉ OPCODES ∧
      ArtCommand.from_buffer (ARTNET_HEADER ++ 1 :: 1 :: [0, 0, 0, 0]) =
        .error (.UnknownOpcode (1 + 256 * 1))) ∧
    (Output.from_bytes [0, 0, 0, 0] =
      .error (.DeserializeError "Could not deserialize field Output::port_address"
        .CursorEof) ∧
      ArtCommand.from_buffer (ARTNET_HEADER ++ 0x00 :: 0x50 :: [0, 0, 0, 0]) =
        .error (.OpcodeError "Output"
          (.DeserializeError "Could not deserialize field Output::port_address"
            .CursorEof))) :=
  ⟨⟨by decide, c5_from_buffer_errors.1 [1, 2, 3] (by decide)⟩,
   ⟨by decide, c5_from_buffer_errors.2.1 _ (by decide) (by decide)⟩,
   ⟨by decide, (c5_from_buffer_errors.2.2.2.1 1 1 [0, 0, 0, 0] (by decide)).1 (by decide)⟩,
   ⟨by decide, (c5_from_buffer_errors.2.2.2.2 [0, 0, 0, 0] (by decide)).2.2 _ (by decide)⟩⟩

/-- C1 (amended): for the three implemented packet kinds, decoding the
encoding succeeds; Poll and PollReply values are recovered exactly, while
an Output value is recovered on every field except the length field (which
now stores the computed value) and except the data field when its logical
length is odd, where the decoded data carries the single appended pad
byte; re-encoding the decoded packet is byte-identical in all cases. -/
theorem c1_roundtrip_amended :
    (∀ v0 v1 ttm dp : Nat, ttm &&& ART_TALK_TO_ME_MASK = ttm →
      (ArtCommand.write_to_buffer (.Poll ⟨[v0, v1], ttm, dp⟩)).bind
          ArtCommand.from_buffer = .ok (.Poll ⟨[v0, v1], ttm, dp⟩)) ∧
    (∀ r : PollReply, r.WF →
      (ArtCommand.write_to_buffer (.PollReply r)).bind ArtCommand.from_buffer =
        .ok (.PollReply r)) ∧
    (∀ v0 v1 s p pa : Nat, ∀ l : BigEndianLengthOutput, ∀ d : List Nat,
      pa ≤ 32767 → 1 ≤ d.length → d.length ≤ 512 →
      (ArtCommand.write_to_buffer (.Output ⟨[v0, v1], s, p, ⟨pa⟩, l, ⟨d⟩⟩)).bind
          ArtCommand.from_buffer =
        .ok (.Output ⟨[v0, v1], s, p, ⟨pa⟩,
          ⟨some (PaddedData.len_rounded_up ⟨d⟩)⟩,
          ⟨d ++ (if d.length % 2 ≠ 0 then [0] else [])⟩⟩) ∧
      ArtCommand.write_to_buffer
          (.Output ⟨[v0, v1], s, p, ⟨pa⟩,
            ⟨some (PaddedData.len_rounded_up ⟨d⟩)⟩,
            ⟨d ++ (if d.length % 2 ≠ 0 then [0] else [])⟩⟩) =
        ArtCommand.write_to_buffer (.Output ⟨[v0, v1], s, p, ⟨pa⟩, l, ⟨d⟩⟩)) := by
  refine ⟨?_, ?_, ?_⟩
  · intro v0 v1 ttm dp h
    obtain ⟨bs, henc, hdec⟩ := poll_roundtrip_full v0 v1 ttm dp h
    rw [henc]
    exact hdec
  · intro r h
    obtain ⟨bs, henc, hdec⟩ := pollreply_roundtrip_full r h
    rw [henc]
    exact hdec
  · intro v0 v1 s p pa l d hpa hd1 hd2
    obtain ⟨bs, henc, hdec, henc2⟩ := output_roundtrip_full v0 v1 s p pa l d hpa hd1 hd2
    exact ⟨by rw [henc]; exact hdec, by rw [henc2, henc]⟩

set_option maxRecDepth 10000 in
/-- C1 counterexample: decoding the encoding of an Output with the
one-byte payload [0xFF] yields a packet whose data field is the padded
two-byte sequence [0xFF, 0x00], not the original payload, so the decoded
packet differs from the original on a field other than the computed
length. -/
theorem c1_counterexample :
    (ArtCommand.write_to_buffer (.Output ⟨[0, 14], 0, 0, ⟨1⟩, ⟨none⟩, ⟨[255]⟩⟩)).bind
        ArtCommand.from_buffer =
      .ok (.Output ⟨[0, 14], 0, 0, ⟨1⟩, ⟨some 2⟩, ⟨[255, 0]⟩⟩) ∧
    (⟨[255, 0]⟩ : PaddedData) ≠ (⟨[255]⟩ : PaddedData) := by
  decide

set_option maxRecDepth 100000 in
/-- Witness for C1 at a concrete Poll, the all-zero PollReply and an
Output with a one-byte payload. -/
theorem c1_witness :
    ((2 : Nat) &&& ART_TALK_TO_ME_MASK = 2 ∧
      (ArtCommand.write_to_buffer (.Poll ⟨[0, 14], 2, 128⟩)).bind
          ArtCommand.from_buffer = .ok (.Poll ⟨[0, 14], 2, 128⟩)) ∧
    (samplePollReply.WF ∧
      (ArtCommand.write_to_buffer (.PollReply samplePollReply)).bind
          ArtCommand.from_buffer = .ok (.PollReply samplePollReply)) ∧
    (1 ≤ ([255] : List Nat).length ∧ ([255] : List Nat).length ≤ 512 ∧
      (ArtCommand.write_to_buffer (.Output ⟨[0, 14], 0, 0, ⟨1⟩, ⟨none⟩, ⟨[255]⟩⟩)).bind
          ArtCommand.from_buffer =
        .ok (.Output ⟨[0, 14], 0, 0, ⟨1⟩, ⟨some 2⟩, ⟨[255, 0]⟩⟩)) :=
  ⟨⟨by decide, c1_roundtrip_amended.1 0 14 2 128 (by decide)⟩,
   ⟨by unfold PollReply.WF; decide,
     c1_roundtrip_amended.2.1 samplePollReply (by unfold PollReply.WF; decide)⟩,
   ⟨by decide, by decide,
     (c1_roundtrip_amended.2.2 0 14 0 0 1 ⟨none⟩ [255]
       (by decide) (by decide) (by decide)).1⟩⟩

end Artnet
